import Mathlib

/-!
Verification of the PyOxidizer native runtime assembly and linking pipeline
(`pyoxidizer/src/py_packaging/libpython.rs`) and of the starlark attribute
dispatch for `PythonPackageDistributionResource`
(`pyoxidizer/src/starlark/python_package_distribution_resource.rs`).

Rust strings are modelled as Lean `String`s; the character-level operations
used by the source (`str::contains`, `str::split`, `Path::join`, suffix
tests) are modelled over the underlying `List Char` so that their behaviour
matches Rust's substring / splitting semantics exactly.

Side-effecting operations (filesystem writes, temp-dir creation, Apple SDK
resolution, the `cc` crate compile calls and the `clang --print-search-dirs`
probe subprocess) are modelled by an explicit environment `Env` of oracles:
each oracle returns `Except String` exactly where the corresponding Rust
call site can fail, and the `?` operator of the source is modelled by
explicit propagation of the `Except.error` branch.
-/

namespace PyOx

/-! ## Character-level string operations (Rust `str` semantics) -/

/-- `isPrefChars pat l` : `pat` is a leading segment of `l`
(character-for-character). Used to model Rust substring matching. -/
def isPrefChars : List Char → List Char → Bool
  | [], _ => true
  | _ :: _, [] => false
  | a :: as, b :: bs => a == b && isPrefChars as bs

/-- `containsChars pat l` : `pat` occurs contiguously somewhere in `l`.
Models Rust `str::contains` with a string pattern. -/
def containsChars (pat : List Char) : List Char → Bool
  | [] => isPrefChars pat []
  | b :: bs => isPrefChars pat (b :: bs) || containsChars pat bs

/-- Rust `str::contains` on `String`s. -/
def strContains (s pat : String) : Bool :=
  containsChars pat.data s.data

/-- Rust `str::ends_with` on `String`s. -/
def strEndsWith (s suf : String) : Bool :=
  isPrefChars suf.data.reverse s.data.reverse

/-- Rust `str::starts_with` on `String`s (used in statements to
characterize which emitted directives are search-path directives). -/
def strStartsWith (s pat : String) : Bool :=
  isPrefChars pat.data s.data

/-- `splitOnCharL c l` : the segments of `l` delimited by `c`, in order,
delimiters dropped; models Rust `str::split(c)` (which always yields at
least one segment, and an empty segment between adjacent delimiters). -/
def splitOnCharL (c : Char) : List Char → List (List Char)
  | [] => [[]]
  | x :: xs =>
    if x == c then
      [] :: splitOnCharL c xs
    else
      match splitOnCharL c xs with
      | [] => [[x]]
      | p :: ps => (x :: p) :: ps

/-- Rust `str::split(c)` on `String`s, as a list of `String`s. -/
def strSplit (s : String) (c : Char) : List String :=
  (splitOnCharL c s.data).map String.mk

/-- Rust `Path::join` for the relative-component joins performed by the
source (`out_dir.join("config.c")`, `PathBuf::from(p).join("lib")`, ...):
push a separator unless the base is empty or already ends in one. -/
def pathJoin (base p : String) : String :=
  if base = "" then p
  else if strEndsWith base "/" then base ++ p
  else base ++ "/" ++ p

/-- Rust `Path::parent`, as used on the staged include path: `none` for the
empty or root path, otherwise the path with its final component dropped. -/
def pathParent (p : String) : Option String :=
  if p = "" || p = "/" then none
  else some (String.intercalate "/" (((splitOnCharL '/' p.data).map String.mk).dropLast))

/-! ## `make_config_c` (libpython.rs lines 22-48) -/

/-- The `extern PyObject* <init_fn>(void);` line pushed for a non-`"NULL"`
init function (libpython.rs line 34). -/
def initFnDeclLine (init_fn : String) : String :=
  "extern PyObject* " ++ init_fn ++ "(void);"

/-- The `{"<name>", <init_fn>},` inittab row (libpython.rs line 41). -/
def tableRowLine (name init_fn : String) : String :=
  "\x7b\"" ++ name ++ "\", " ++ init_fn ++ "\x7d,"

/-- First loop of `make_config_c` (lines 32-36): push one declaration per
extension whose init function is not the literal `"NULL"`. -/
def pushInitFnDecls (extensions : List (String × String)) (lines : List String) : List String :=
  match extensions with
  | [] => lines
  | (_name, init_fn) :: rest =>
    pushInitFnDecls rest
      (if init_fn != "NULL" then lines ++ [initFnDeclLine init_fn] else lines)

/-- Second loop of `make_config_c` (lines 40-42): push one table row per
extension. -/
def pushTableRows (extensions : List (String × String)) (lines : List String) : List String :=
  match extensions with
  | [] => lines
  | (name, init_fn) :: rest =>
    pushTableRows rest (lines ++ [tableRowLine name init_fn])

/-- The lines accumulated by `make_config_c` before the final `join("\n")`. -/
def configCLines (extensions : List (String × String)) : List String :=
  let lines : List String := ["#include \"Python.h\""]
  let lines := pushInitFnDecls extensions lines
  let lines := lines ++ ["struct _inittab _PyImport_Inittab[] = \x7b"]
  let lines := pushTableRows extensions lines
  let lines := lines ++ ["\x7b0, 0\x7d", "\x7d;"]
  lines

/-- `make_config_c` (libpython.rs lines 23-48): produce the content of the
`config.c` file registering the built-in extensions. -/
def make_config_c (extensions : List (String × String)) : String :=
  String.intercalate "\n" (configCLines extensions)

/-! ### Structure lemmas for `make_config_c` -/

theorem pushInitFnDecls_eq (extensions : List (String × String)) (lines : List String) :
    pushInitFnDecls extensions lines =
      lines ++ (extensions.filter (fun p => p.2 != "NULL")).map (fun p => initFnDeclLine p.2) := by
  induction extensions generalizing lines with
  | nil => simp [pushInitFnDecls]
  | cons hd tl ih =>
    obtain ⟨name, init_fn⟩ := hd
    by_cases h : init_fn = "NULL"
    · simp [pushInitFnDecls, h, ih]
    · simp [pushInitFnDecls, h, ih]

theorem pushTableRows_eq (extensions : List (String × String)) (lines : List String) :
    pushTableRows extensions lines =
      lines ++ extensions.map (fun p => tableRowLine p.1 p.2) := by
  induction extensions generalizing lines with
  | nil => simp [pushTableRows]
  | cons hd tl ih =>
    obtain ⟨name, init_fn⟩ := hd
    simp [pushTableRows, ih]

theorem configCLines_eq (extensions : List (String × String)) :
    configCLines extensions =
      "#include \"Python.h\"" ::
        ((extensions.filter (fun p => p.2 != "NULL")).map (fun p => initFnDeclLine p.2)
          ++ ["struct _inittab _PyImport_Inittab[] = \x7b"]
          ++ extensions.map (fun p => tableRowLine p.1 p.2)
          ++ ["\x7b0, 0\x7d", "\x7d;"]) := by
  simp [configCLines, pushInitFnDecls_eq, pushTableRows_eq]

theorem head_initFnDeclLine (f : String) : (initFnDeclLine f).data.head? = some 'e' := rfl

theorem head_tableRowLine (n f : String) : (tableRowLine n f).data.head? = some '\x7b' := rfl

theorem snd_tableRowLine (n f : String) : (tableRowLine n f).data.tail.head? = some '"' := rfl

theorem initFnDeclLine_ne_sentinel (f : String) : initFnDeclLine f ≠ "\x7b0, 0\x7d" := by
  intro h
  have h2 : (initFnDeclLine f).data.head? = ("\x7b0, 0\x7d" : String).data.head? := by rw [h]
  rw [head_initFnDeclLine] at h2
  exact absurd h2 (by decide)

theorem tableRowLine_ne_sentinel (n f : String) : tableRowLine n f ≠ "\x7b0, 0\x7d" := by
  intro h
  have h2 : (tableRowLine n f).data.tail.head? = ("\x7b0, 0\x7d" : String).data.tail.head? := by
    rw [h]
  rw [snd_tableRowLine] at h2
  exact absurd h2 (by decide)

theorem initFnDeclLine_injective (f g : String) (h : initFnDeclLine f = initFnDeclLine g) :
    f = g := by
  have h2 := congrArg String.data h
  simp only [initFnDeclLine, String.data_append, List.append_assoc] at h2
  have h3 := List.append_cancel_left h2
  exact String.ext (List.append_cancel_right h3)

theorem tableRowLine_ne_nullDecl (n f : String) :
    tableRowLine n f ≠ "extern PyObject* NULL(void);" := by
  intro h
  have h2 : (tableRowLine n f).data.head? =
      ("extern PyObject* NULL(void);" : String).data.head? := by rw [h]
  rw [head_tableRowLine] at h2
  exact absurd h2 (by decide)

theorem count_sentinel_configCLines (extensions : List (String × String)) :
    (configCLines extensions).count "\x7b0, 0\x7d" = 1 := by
  rw [configCLines_eq]
  have hd : ∀ l ∈ (extensions.filter (fun p => p.2 != "NULL")).map
      (fun p => initFnDeclLine p.2), l ≠ "\x7b0, 0\x7d" := by
    intro l hl
    obtain ⟨p, _, hp⟩ := List.mem_map.mp hl
    exact hp ▸ initFnDeclLine_ne_sentinel p.2
  have hr : ∀ l ∈ extensions.map (fun p => tableRowLine p.1 p.2),
      l ≠ "\x7b0, 0\x7d" := by
    intro l hl
    obtain ⟨p, _, hp⟩ := List.mem_map.mp hl
    exact hp ▸ tableRowLine_ne_sentinel p.1 p.2
  have cd : ((extensions.filter (fun p => p.2 != "NULL")).map
      (fun p => initFnDeclLine p.2)).count "\x7b0, 0\x7d" = 0 :=
    List.count_eq_zero.mpr (fun hmem => (hd _ hmem) rfl)
  have cr : (extensions.map (fun p => tableRowLine p.1 p.2)).count "\x7b0, 0\x7d" = 0 :=
    List.count_eq_zero.mpr (fun hmem => (hr _ hmem) rfl)
  simp [List.count_append, List.count_cons, cd, cr]

/-! ## `macos_clang_search_path` (libpython.rs lines 250-270) -/

/-- Outcome of running `clang --print-search-dirs`
(`std::process::Command::output()`): either the process could not be
launched at all (the `Err` of `output()`, e.g. the driver is absent), or it
exited with a success flag (`status.success()`) and the stdout text, given
here as its list of lines. -/
inductive ProbeOutcome
  | launchFailure (msg : String)
  | exited (success : Bool) (stdout_lines : List String)
  deriving DecidableEq, Repr

/-- Line scan of `macos_clang_search_path` (lines 259-267): find the first
stdout line containing `libraries: =`, take `split('=').nth(1)` of it and
append `lib/darwin` as path components. -/
def searchLines : List String → Except String (Option String)
  | [] => .ok none
  | line :: rest =>
    if strContains line "libraries: =" then
      match (strSplit line '=')[1]? with
      | some path => .ok (some (pathJoin (pathJoin path "lib") "darwin"))
      | none => .error "could not parse libraries line"
    else searchLines rest

/-- `macos_clang_search_path` (lines 251-270): attempt to resolve the linker
search path for clang runtime libraries. A launch failure of the probe
process propagates through the `?` operator as an error; a non-zero exit
status returns `Ok(None)`; otherwise the stdout lines are scanned. -/
def macos_clang_search_path (probe : ProbeOutcome) : Except String (Option String) :=
  match probe with
  | .launchFailure e => .error e
  | .exited success stdout_lines =>
    if !success then .ok none
    else searchLines stdout_lines

/-! ### Lemmas about the probe -/

theorem isPrefChars_mem {pat l : List Char} {c : Char}
    (h : isPrefChars pat l = true) (hc : c ∈ pat) : c ∈ l := by
  induction pat generalizing l with
  | nil => exact absurd hc (List.not_mem_nil c)
  | cons a as ih =>
    cases l with
    | nil => exact absurd h (by simp [isPrefChars])
    | cons b bs =>
      simp only [isPrefChars, Bool.and_eq_true, beq_iff_eq] at h
      rcases List.mem_cons.mp hc with hca | hcas
      · exact List.mem_cons.mpr (Or.inl (hca.trans h.1))
      · exact List.mem_cons.mpr (Or.inr (ih h.2 hcas))

theorem containsChars_mem {pat l : List Char} {c : Char}
    (h : containsChars pat l = true) (hc : c ∈ pat) : c ∈ l := by
  induction l with
  | nil =>
    have hpat : pat = [] := by
      cases pat with
      | nil => rfl
      | cons a as => exact absurd h (by simp [containsChars, isPrefChars])
    rw [hpat] at hc
    exact absurd hc (List.not_mem_nil c)
  | cons b bs ih =>
    simp only [containsChars, Bool.or_eq_true] at h
    rcases h with h | h
    · exact isPrefChars_mem h hc
    · exact List.mem_cons.mpr (Or.inr (ih h))

theorem splitOnCharL_ne_nil (c : Char) (l : List Char) : splitOnCharL c l ≠ [] := by
  cases l with
  | nil => simp [splitOnCharL]
  | cons x xs =>
    by_cases h : x = c
    · simp [splitOnCharL, h]
    · simp only [splitOnCharL, beq_iff_eq, if_neg h]
      cases hs : splitOnCharL c xs <;> simp

theorem two_le_splitOnCharL_of_mem {c : Char} {l : List Char} (h : c ∈ l) :
    2 ≤ (splitOnCharL c l).length := by
  induction l with
  | nil => exact absurd h (List.not_mem_nil c)
  | cons x xs ih =>
    by_cases hx : x = c
    · have h1 : 1 ≤ (splitOnCharL c xs).length :=
        Nat.one_le_iff_ne_zero.mpr (fun h0 =>
          splitOnCharL_ne_nil c xs (List.length_eq_zero.mp h0))
      simp only [splitOnCharL, beq_iff_eq, if_pos hx, List.length_cons]
      omega
    · have hmem : c ∈ xs := by
        rcases List.mem_cons.mp h with h | h
        · exact absurd h.symm hx
        · exact h
      have h2 := ih hmem
      simp only [splitOnCharL, beq_iff_eq, if_neg hx]
      cases hs : splitOnCharL c xs with
      | nil => exact absurd hs (splitOnCharL_ne_nil c xs)
      | cons p ps =>
        rw [hs] at h2
        simpa using h2

theorem marker_line_split_two {line : String}
    (h : strContains line "libraries: =" = true) :
    2 ≤ (strSplit line '=').length := by
  have hc : '=' ∈ line.data :=
    @containsChars_mem ("libraries: =" : String).data line.data '=' h (by decide)
  simpa [strSplit] using two_le_splitOnCharL_of_mem hc

theorem marker_line_split_some {line : String}
    (h : strContains line "libraries: =" = true) :
    ∃ path, (strSplit line '=')[1]? = some path := by
  have h2 := marker_line_split_two h
  exact ⟨_, List.getElem?_eq_getElem (by omega)⟩

theorem searchLines_ne_parse_error (lines : List String) :
    searchLines lines ≠ Except.error "could not parse libraries line" := by
  induction lines with
  | nil => simp [searchLines]
  | cons line rest ih =>
    by_cases h : strContains line "libraries: =" = true
    · obtain ⟨path, hp⟩ := marker_line_split_some h
      simp [searchLines, h, hp]
    · simp only [Bool.not_eq_true] at h
      simp [searchLines, h, ih]

theorem searchLines_eq (lines : List String) :
    searchLines lines =
      Except.ok ((lines.find? (fun l => strContains l "libraries: =")).map
        (fun line => pathJoin (pathJoin (((strSplit line '=')[1]?).getD "") "lib") "darwin")) := by
  induction lines with
  | nil => simp [searchLines]
  | cons line rest ih =>
    by_cases h : strContains line "libraries: =" = true
    · obtain ⟨path, hp⟩ := marker_line_split_some h
      simp [searchLines, h, hp, List.find?]
    · simp only [Bool.not_eq_true] at h
      simp [searchLines, h, ih, List.find?]

/-- Claim C9: the `could not parse libraries line` error branch of
`macos_clang_search_path` is unreachable: every stdout line containing the
substring `libraries: =` splits on `'='` into at least two parts, so
`split('=').nth(1)` is always `Some`, and the function never returns this
error for a probe process that was launched (whatever its exit status). -/
theorem c9_parse_error_unreachable :
    (∀ line : String, strContains line "libraries: =" = true →
      2 ≤ (strSplit line '=').length) ∧
    (∀ (success : Bool) (lines : List String),
      macos_clang_search_path (ProbeOutcome.exited success lines) ≠
        Except.error "could not parse libraries line") := by
  refine ⟨fun line h => marker_line_split_two h, fun success lines => ?_⟩
  cases success with
  | false => simp [macos_clang_search_path]
  | true => simpa [macos_clang_search_path] using searchLines_ne_parse_error lines

/-- Witness for C9 at a concrete probe output. -/
theorem c9_witness :
    2 ≤ (strSplit "libraries: =/usr/lib/clang" '=').length ∧
    macos_clang_search_path (ProbeOutcome.exited true ["libraries: =/usr/lib/clang"]) ≠
      Except.error "could not parse libraries line" :=
  ⟨c9_parse_error_unreachable.1 "libraries: =/usr/lib/clang" (by decide),
   c9_parse_error_unreachable.2 true ["libraries: =/usr/lib/clang"]⟩

/-- The value claim C7 predicts for a marker line, following the spec's
words: the text of the line after its first `=` character. -/
def textAfterFirstEq (line : String) : String :=
  String.mk ((line.data.dropWhile (fun c => c != '=')).drop 1)

/-- Counterexample to C7 as stated: on the successfully-exited probe output
line `libraries: =/a=/b`, the code takes `split('=').nth(1)`, i.e. the
segment strictly between the first and second `=` (`/a`), not the whole
text after the first `=` (`/a=/b`); the two disagree on this input. -/
theorem c7_counterexample :
    macos_clang_search_path (ProbeOutcome.exited true ["libraries: =/a=/b"]) =
      Except.ok (some "/a/lib/darwin") ∧
    pathJoin (pathJoin (textAfterFirstEq "libraries: =/a=/b") "lib") "darwin" ≠
      "/a/lib/darwin" := by
  constructor
  · rfl
  · decide

/-- Claim C7 (amended): for every probe run that exits successfully,
`macos_clang_search_path` returns `Some` of the segment of the first
stdout line containing `libraries: =` that lies between the line's first
and second `=` characters (the whole remainder when there is no second
`=`, i.e. `split('=').nth(1)`), with `lib` and `darwin` appended as path
components; and `None` when no line contains the marker. -/
theorem c7_marker_line_resolution (lines : List String) :
    macos_clang_search_path (ProbeOutcome.exited true lines) =
      Except.ok ((lines.find? (fun l => strContains l "libraries: =")).map
        (fun line => pathJoin (pathJoin (((strSplit line '=')[1]?).getD "") "lib") "darwin")) := by
  simpa [macos_clang_search_path] using searchLines_eq lines

/-- Claim C1: for every sequence of (name, init-symbol) pairs, the lines of
the string returned by `make_config_c` are exactly: the `Python.h` include,
one `extern PyObject* <init-symbol>(void);` declaration per entry whose
init-symbol is not the literal `"NULL"` in input order, the inittab array
opener, one `{"<name>", <init-symbol>},` row per entry (including `"NULL"`
entries) in input order, and a single trailing `{0, 0}` sentinel row before
the closing brace — covering the empty-sequence case (zero declarations,
zero non-sentinel rows, one sentinel) as the instance `extensions = []`. -/
theorem c1_make_config_c_structure (extensions : List (String × String)) :
    make_config_c extensions = String.intercalate "\n" (configCLines extensions) ∧
    configCLines extensions =
      "#include \"Python.h\"" ::
        ((extensions.filter (fun p => p.2 != "NULL")).map (fun p => initFnDeclLine p.2)
          ++ ["struct _inittab _PyImport_Inittab[] = \x7b"]
          ++ extensions.map (fun p => tableRowLine p.1 p.2)
          ++ ["\x7b0, 0\x7d", "\x7d;"]) ∧
    (configCLines extensions).count "\x7b0, 0\x7d" = 1 :=
  ⟨rfl, configCLines_eq extensions, count_sentinel_configCLines extensions⟩

theorem nullDecl_not_mem_configCLines (extensions : List (String × String)) :
    "extern PyObject* NULL(void);" ∉ configCLines extensions := by
  rw [configCLines_eq]
  intro hmem
  rcases List.mem_cons.mp hmem with h | hmem
  · exact absurd h.symm (by decide)
  rcases List.mem_append.mp hmem with hmem | hmem
  rcases List.mem_append.mp hmem with hmem | hmem
  rcases List.mem_append.mp hmem with hmem | hmem
  · obtain ⟨p, hp, hline⟩ := List.mem_map.mp hmem
    have : p.2 = "NULL" := initFnDeclLine_injective p.2 "NULL" hline
    have hne := List.of_mem_filter hp
    rw [this] at hne
    exact absurd hne (by decide)
  · simp only [List.mem_singleton] at hmem
    exact absurd hmem (by decide)
  · obtain ⟨p, _, hline⟩ := List.mem_map.mp hmem
    exact tableRowLine_ne_nullDecl p.1 p.2 hline
  · rcases List.mem_cons.mp hmem with h | hmem
    · exact absurd h (by decide)
    · simp only [List.mem_singleton] at hmem
      exact absurd hmem (by decide)

/-- Claim C8: for every input sequence, the line `extern PyObject* NULL(void);`
occurs zero times among the generated `config.c` lines: the literal `"NULL"`
is never the declared function of an `extern` declaration, even when `"NULL"`
is the init-symbol of several table entries. -/
theorem c8_no_null_decl (extensions : List (String × String)) :
    (configCLines extensions).count "extern PyObject* NULL(void);" = 0 :=
  List.count_eq_zero.mpr (nullDecl_not_mem_configCLines extensions)

/-! ## `link_libpython` (libpython.rs lines 50-248) -/

/-- `tugger_file_manifest::FileData`: either in-memory bytes or an on-disk
path. The byte content is modelled as a string. -/
inductive FileData
  | memory (data : String)
  | path (p : String)
  deriving DecidableEq, Repr

/-- Modelled from the spec: `AppleSdkInfo` (the Apple SDK descriptor, §3)
is declared in py_packaging/distribution.rs, outside the provided sources;
its fields are never read by `link_libpython` itself — the value is only
forwarded to the SDK-resolution oracle — so it is modelled as opaque. -/
structure AppleSdkInfo where
  deriving DecidableEq, Repr

/-- Modelled from the spec: `crate::environment::WINDOWS_TARGET_TRIPLES`
is outside the provided sources; the spec (§4.3) only distinguishes
Windows target triples from non-Windows ones, so the set is modelled as
the fixed list of `*-pc-windows-*` triples. -/
def WINDOWS_TARGET_TRIPLES : List String :=
  ["i686-pc-windows-gnu", "i686-pc-windows-msvc",
   "x86_64-pc-windows-gnu", "x86_64-pc-windows-msvc"]

/-- `python_packaging::libpython::LibPythonBuildContext`. Modelled from the
spec (§3): the struct itself lives in the python_packaging crate, outside
the provided sources; its fields are listed by the spec and each collection
is modelled as a list in the order the source's `for` loops iterate it. -/
structure LibPythonBuildContext where
  init_functions : List (String × String)
  includes : List (String × FileData)
  object_files : List FileData
  frameworks : List String
  system_libraries : List String
  dynamic_libraries : List String
  static_libraries : List String
  library_search_paths : List String
  inittab_cflags : Option (List String)
  deriving DecidableEq, Repr

/-- The configuration accumulated on a `cc::Build` value by the builder
calls the source makes (`flag`, `out_dir`, `host`, `target`,
`opt_level_str`, `file`, `include`, `object`, `cargo_metadata`). -/
structure CcBuild where
  flags : List String := []
  build_out_dir : Option String := none
  build_host : Option String := none
  build_target : Option String := none
  build_opt_level : Option String := none
  files : List String := []
  include_dirs : List String := []
  objects : List String := []
  emit_cargo_metadata : Bool := true
  deriving DecidableEq, Repr

/-- `cc::Build::new()`. -/
def CcBuild.new : CcBuild := {}

/-- Observable external actions of one `link_libpython` invocation: the
compiler/archiver invocations (`cc::Build::compile`) that were attempted,
in order. -/
inductive Event
  | compileInvocation (libname : String)
  deriving DecidableEq, Repr

/-- The oracle environment for one `link_libpython` invocation: outcomes of
every fallible external interaction, in the source's order of use. The
`resolve_apple_sdk` oracle stands for `Environment::resolve_apple_sdk`
(outside the provided sources) and returns the resolved SDK path. The
outcome of the `clang --print-search-dirs` subprocess is passed to
`link_libpython` separately as a `ProbeOutcome`. -/
structure Env where
  tempdir : Except String String
  fsWrite : String → String → Except String Unit
  createDirAll : String → Except String Unit
  resolveLoc : FileData → Except String String
  resolve_apple_sdk : AppleSdkInfo → Except String String
  compile : CcBuild → String → Except String Unit

/-- `LibpythonInfo` (lines 50-55). -/
structure LibpythonInfo where
  libpython_path : String
  libpyembeddedconfig_path : String
  cargo_metadata : List String
  deriving DecidableEq, Repr

/-- Include-staging loop (lines 100-108): for each `(rel_path, location)`,
create the parent directory of the staged path, resolve the content and
write it; the first failure aborts. -/
def stageIncludes (env : Env) (temp_dir_path : String) :
    List (String × FileData) → Except String Unit
  | [] => .ok ()
  | (rel_path, location) :: rest =>
    let full := pathJoin temp_dir_path rel_path
    match pathParent full with
    | none => .error "unable to resolve parent directory"
    | some parent =>
      match env.createDirAll parent with
      | .error e => .error e
      | .ok () =>
        match env.resolveLoc location with
        | .error e => .error e
        | .ok data =>
          match env.fsWrite full data with
          | .error e => .error e
          | .ok () => stageIncludes env temp_dir_path rest

/-- The `build.flag(flag)` loop over `inittab_cflags` (lines 113-117). -/
def addFlags (build : CcBuild) : List String → CcBuild
  | [] => build
  | f :: rest => addFlags { build with flags := build.flags ++ [f] } rest

/-- Lines 113-117: apply `inittab_cflags` when present. -/
def applyInittabCflags (build : CcBuild) : Option (List String) → CcBuild
  | none => build
  | some flags => addFlags build flags

/-- Lines 119-134: on an Apple target, require the SDK descriptor (its
absence is the configuration error), resolve it and add the `-isysroot`
flags. -/
def appleSysrootFlags (env : Env) (target_triple : String)
    (apple_sdk_info : Option AppleSdkInfo) (build : CcBuild) : Except String CcBuild :=
  if strContains target_triple "-apple-" then
    match apple_sdk_info with
    | none => .error "Apple SDK info should be defined when targeting Apple platforms"
    | some sdk_info =>
      match env.resolve_apple_sdk sdk_info with
      | .error e => .error e
      | .ok sdk_path => .ok { build with flags := build.flags ++ ["-isysroot", sdk_path] }
  else .ok build

/-- Object-file loop of pass 2 (lines 164-175): in-memory entries are first
written to `libpython.<i>.o` in the staging directory; every entry is added
to the build as an object. -/
def addObjectFiles (env : Env) (temp_dir_path : String) (i : Nat) (build : CcBuild) :
    List FileData → Except String CcBuild
  | [] => .ok build
  | location :: rest =>
    match location with
    | .memory data =>
      let out_path := pathJoin temp_dir_path ("libpython." ++ toString i ++ ".o")
      match env.fsWrite out_path data with
      | .error e => .error e
      | .ok () =>
        addObjectFiles env temp_dir_path (i + 1)
          { build with objects := build.objects ++ [out_path] } rest
    | .path p =>
      addObjectFiles env temp_dir_path (i + 1)
        { build with objects := build.objects ++ [p] } rest

/-- One `cargo_metadata.push(...)` loop (lines 177-191 and 239-241): push
one directive per item, in iteration order. -/
def pushDirectives (fmt : String → String) (items : List String)
    (cargo_metadata : List String) : List String :=
  match items with
  | [] => cargo_metadata
  | x :: rest => pushDirectives fmt rest (cargo_metadata ++ [fmt x])

/-- Lines 199-205: on `*-apple-darwin` targets, push the probe's search
path when resolution succeeded (propagating a probe launch failure through
`?`), then unconditionally push the `clang_rt.osx` library directive. -/
def darwinMetadata (probe : ProbeOutcome) (target_triple : String)
    (cargo_metadata : List String) : Except String (List String) :=
  if strEndsWith target_triple "-apple-darwin" then
    match macos_clang_search_path probe with
    | .error e => .error e
    | .ok r =>
      let cargo_metadata :=
        match r with
        | some path => cargo_metadata ++ ["cargo:rustc-link-search=" ++ path]
        | none => cargo_metadata
      .ok (cargo_metadata ++ ["cargo:rustc-link-lib=clang_rt.osx"])
  else .ok cargo_metadata

/-- Lines 73-144 of `link_libpython`, up to (but not including) the first
`compile` call: create the staging directory, write `config.c` to the
output and staging directories, stage the includes, and accumulate the
flags and inputs of the first `cc::Build`. Returns the staging directory
path and the fully configured first build. -/
def prePassOne (env : Env) (context : LibPythonBuildContext)
    (out_dir host_triple target_triple opt_level : String)
    (apple_sdk_info : Option AppleSdkInfo) : Except String (String × CcBuild) :=
  match env.tempdir with
  | .error e => .error e
  | .ok temp_dir_path =>
    let config_c_source := make_config_c context.init_functions
    let config_c_path := pathJoin out_dir "config.c"
    let config_c_temp_path := pathJoin temp_dir_path "config.c"
    match env.fsWrite config_c_path config_c_source with
    | .error e => .error e
    | .ok () =>
    match env.fsWrite config_c_temp_path config_c_source with
    | .error e => .error e
    | .ok () =>
    match stageIncludes env temp_dir_path context.includes with
    | .error e => .error e
    | .ok () =>
    let build := applyInittabCflags CcBuild.new context.inittab_cflags
    match appleSysrootFlags env target_triple apple_sdk_info build with
    | .error e => .error e
    | .ok build =>
      .ok (temp_dir_path, { build with
        build_out_dir := some out_dir
        build_host := some host_triple
        build_target := some target_triple
        build_opt_level := some opt_level
        files := build.files ++ [config_c_temp_path]
        include_dirs := build.include_dirs ++ [temp_dir_path]
        emit_cargo_metadata := false })

/-- Lines 155-175: the second `cc::Build` with the object files added
(in-memory entries staged first). -/
def preparePassTwo (env : Env) (context : LibPythonBuildContext)
    (out_dir host_triple target_triple opt_level temp_dir_path : String) :
    Except String CcBuild :=
  addObjectFiles env temp_dir_path 0
    { CcBuild.new with
      build_out_dir := some out_dir
      build_host := some host_triple
      build_target := some target_triple
      build_opt_level := some opt_level
      emit_cargo_metadata := false }
    context.object_files

/-- Lines 177-191: the per-library directive pushes between the two compile
passes (frameworks, then system, then dynamic, then static libraries). -/
def libraryDirectives (context : LibPythonBuildContext)
    (cargo_metadata : List String) : List String :=
  let cargo_metadata := pushDirectives
    (fun framework => "cargo:rustc-link-lib=framework=" ++ framework)
    context.frameworks cargo_metadata
  let cargo_metadata := pushDirectives
    (fun lib => "cargo:rustc-link-lib=" ++ lib)
    context.system_libraries cargo_metadata
  let cargo_metadata := pushDirectives
    (fun lib => "cargo:rustc-link-lib=" ++ lib)
    context.dynamic_libraries cargo_metadata
  let cargo_metadata := pushDirectives
    (fun lib => "cargo:rustc-link-lib=static=" ++ lib)
    context.static_libraries cargo_metadata
  cargo_metadata

/-- Lines 223-247: everything after the second compile call succeeds —
artifact paths from the Windows/Unix naming split, the produced-library
directives, and the `library_search_paths` directives. -/
def finishLink (context : LibPythonBuildContext) (out_dir : String) (windows : Bool)
    (cargo_metadata : List String) : LibpythonInfo :=
  let libpyembeddedconfig_path :=
    pathJoin out_dir (if windows then "pyembeddedconfig.lib" else "libpyembeddedconfig.a")
  let libpython_path :=
    pathJoin out_dir (if windows then "pythonXY.lib" else "libpythonXY.a")
  let cargo_metadata := cargo_metadata ++ ["cargo:rustc-link-lib=static=pythonXY"]
  let cargo_metadata := cargo_metadata ++ ["cargo:rustc-link-search=native=" ++ out_dir]
  let cargo_metadata := pushDirectives
    (fun path => "cargo:rustc-link-search=native=" ++ path)
    context.library_search_paths cargo_metadata
  { libpython_path := libpython_path
    libpyembeddedconfig_path := libpyembeddedconfig_path
    cargo_metadata := cargo_metadata }

/-- `link_libpython` (lines 61-248): create a static libpython from a
Python distribution. Returns the result the Rust function returns together
with the trace of attempted compiler invocations. -/
def link_libpython (env : Env) (probe : ProbeOutcome) (context : LibPythonBuildContext)
    (out_dir host_triple target_triple opt_level : String)
    (apple_sdk_info : Option AppleSdkInfo) :
    Except String LibpythonInfo × List Event :=
  let windows := WINDOWS_TARGET_TRIPLES.contains target_triple
  match prePassOne env context out_dir host_triple target_triple opt_level apple_sdk_info with
  | .error e => (.error e, [])
  | .ok (temp_dir_path, build) =>
    match env.compile build "pyembeddedconfig" with
    | .error e => (.error e, [.compileInvocation "pyembeddedconfig"])
    | .ok () =>
    let cargo_metadata : List String := ["cargo:rustc-link-lib=static=pyembeddedconfig"]
    match preparePassTwo env context out_dir host_triple target_triple opt_level
        temp_dir_path with
    | .error e => (.error e, [.compileInvocation "pyembeddedconfig"])
    | .ok build2 =>
    let cargo_metadata := libraryDirectives context cargo_metadata
    match darwinMetadata probe target_triple cargo_metadata with
    | .error e => (.error e, [.compileInvocation "pyembeddedconfig"])
    | .ok cargo_metadata =>
    match env.compile build2 "pythonXY" with
    | .error e =>
      (.error e, [.compileInvocation "pyembeddedconfig", .compileInvocation "pythonXY"])
    | .ok () =>
      (.ok (finishLink context out_dir windows cargo_metadata),
       [.compileInvocation "pyembeddedconfig", .compileInvocation "pythonXY"])

/-! ### Characterization of a successful `link_libpython` run -/

theorem pushDirectives_eq (fmt : String → String) (items cargo_metadata : List String) :
    pushDirectives fmt items cargo_metadata = cargo_metadata ++ items.map fmt := by
  induction items generalizing cargo_metadata with
  | nil => simp [pushDirectives]
  | cons x rest ih => simp [pushDirectives, ih]

/-- The directives the darwin branch (lines 199-205) appends for probe
result `r`. -/
def probeDirectives : Option String → List String
  | some path => ["cargo:rustc-link-search=" ++ path, "cargo:rustc-link-lib=clang_rt.osx"]
  | none => ["cargo:rustc-link-lib=clang_rt.osx"]

theorem darwinMetadata_ok {probe : ProbeOutcome} {target_triple : String} {cm out : List String}
    (h : darwinMetadata probe target_triple cm = .ok out) :
    (strEndsWith target_triple "-apple-darwin" = true →
      ∃ r, macos_clang_search_path probe = .ok r ∧ out = cm ++ probeDirectives r) ∧
    (strEndsWith target_triple "-apple-darwin" = false → out = cm) := by
  by_cases hd : strEndsWith target_triple "-apple-darwin" = true
  · rw [darwinMetadata, if_pos hd] at h
    cases hp : macos_clang_search_path probe with
    | error e => rw [hp] at h; exact absurd h (by simp)
    | ok r =>
      rw [hp] at h
      cases r with
      | none =>
        simp only [Except.ok.injEq] at h
        exact ⟨fun _ => ⟨none, rfl, by simp [probeDirectives, ← h]⟩,
          fun hf => absurd hd (by simp [hf])⟩
      | some p =>
        simp only [Except.ok.injEq] at h
        exact ⟨fun _ => ⟨some p, rfl, by simp [probeDirectives, ← h]⟩,
          fun hf => absurd hd (by simp [hf])⟩
  · rw [darwinMetadata, if_neg hd] at h
    simp only [Except.ok.injEq] at h
    exact ⟨fun ht => absurd ht hd, fun _ => h.symm⟩

theorem libraryDirectives_eq (context : LibPythonBuildContext) (cargo_metadata : List String) :
    libraryDirectives context cargo_metadata =
      cargo_metadata
      ++ context.frameworks.map (fun framework => "cargo:rustc-link-lib=framework=" ++ framework)
      ++ context.system_libraries.map (fun lib => "cargo:rustc-link-lib=" ++ lib)
      ++ context.dynamic_libraries.map (fun lib => "cargo:rustc-link-lib=" ++ lib)
      ++ context.static_libraries.map (fun lib => "cargo:rustc-link-lib=static=" ++ lib) := by
  simp [libraryDirectives, pushDirectives_eq]

theorem finishLink_spec (context : LibPythonBuildContext) (out_dir : String)
    (windows : Bool) (cargo_metadata : List String) :
    (finishLink context out_dir windows cargo_metadata).cargo_metadata =
      cargo_metadata
      ++ ["cargo:rustc-link-lib=static=pythonXY",
          "cargo:rustc-link-search=native=" ++ out_dir]
      ++ context.library_search_paths.map
          (fun path => "cargo:rustc-link-search=native=" ++ path) ∧
    (finishLink context out_dir windows cargo_metadata).libpyembeddedconfig_path =
      pathJoin out_dir (if windows then "pyembeddedconfig.lib" else "libpyembeddedconfig.a") ∧
    (finishLink context out_dir windows cargo_metadata).libpython_path =
      pathJoin out_dir (if windows then "pythonXY.lib" else "libpythonXY.a") := by
  refine ⟨?_, rfl, rfl⟩
  simp [finishLink, pushDirectives_eq]

/-- On every successful run, the returned artifact paths are the pure
Windows/non-Windows mapping of the target triple, the cargo directives are
exactly the fixed concatenation in the source's emission order, and exactly
the two compiler invocations were attempted. -/
theorem link_ok_characterization
    {env : Env} {probe : ProbeOutcome} {context : LibPythonBuildContext}
    {out_dir host_triple target_triple opt_level : String}
    {apple_sdk_info : Option AppleSdkInfo} {info : LibpythonInfo} {evs : List Event}
    (h : link_libpython env probe context out_dir host_triple target_triple opt_level
      apple_sdk_info = (.ok info, evs)) :
    ∃ darwinBlock : List String,
      ((strEndsWith target_triple "-apple-darwin" = true →
          ∃ r, macos_clang_search_path probe = .ok r ∧ darwinBlock = probeDirectives r) ∧
       (strEndsWith target_triple "-apple-darwin" = false → darwinBlock = [])) ∧
      info.cargo_metadata =
        ["cargo:rustc-link-lib=static=pyembeddedconfig"]
        ++ context.frameworks.map (fun framework => "cargo:rustc-link-lib=framework=" ++ framework)
        ++ context.system_libraries.map (fun lib => "cargo:rustc-link-lib=" ++ lib)
        ++ context.dynamic_libraries.map (fun lib => "cargo:rustc-link-lib=" ++ lib)
        ++ context.static_libraries.map (fun lib => "cargo:rustc-link-lib=static=" ++ lib)
        ++ darwinBlock
        ++ ["cargo:rustc-link-lib=static=pythonXY",
            "cargo:rustc-link-search=native=" ++ out_dir]
        ++ context.library_search_paths.map (fun path => "cargo:rustc-link-search=native=" ++ path) ∧
      info.libpyembeddedconfig_path = pathJoin out_dir
        (if WINDOWS_TARGET_TRIPLES.contains target_triple
          then "pyembeddedconfig.lib" else "libpyembeddedconfig.a") ∧
      info.libpython_path = pathJoin out_dir
        (if WINDOWS_TARGET_TRIPLES.contains target_triple
          then "pythonXY.lib" else "libpythonXY.a") ∧
      evs = [.compileInvocation "pyembeddedconfig", .compileInvocation "pythonXY"] := by
  simp only [link_libpython] at h
  cases hpre : prePassOne env context out_dir host_triple target_triple opt_level
      apple_sdk_info with
  | error e => simp only [hpre] at h; simp at h
  | ok tb =>
  obtain ⟨temp_dir_path, build⟩ := tb
  simp only [hpre] at h
  cases hc1 : env.compile build "pyembeddedconfig" with
  | error e => simp only [hc1] at h; simp at h
  | ok u =>
  cases u
  simp only [hc1] at h
  cases hp2 : preparePassTwo env context out_dir host_triple target_triple opt_level
      temp_dir_path with
  | error e => simp only [hp2] at h; simp at h
  | ok build2 =>
  simp only [hp2] at h
  cases hdar : darwinMetadata probe target_triple
      (libraryDirectives context ["cargo:rustc-link-lib=static=pyembeddedconfig"]) with
  | error e => simp only [hdar] at h; simp at h
  | ok cm =>
  simp only [hdar] at h
  cases hc2 : env.compile build2 "pythonXY" with
  | error e => simp only [hc2] at h; simp at h
  | ok u2 =>
  cases u2
  simp only [hc2] at h
  simp only [Prod.mk.injEq, Except.ok.injEq] at h
  obtain ⟨hinfo, hevs⟩ := h
  obtain ⟨hblock, hnb⟩ := darwinMetadata_ok hdar
  obtain ⟨hcm, hp1, hp2'⟩ := finishLink_spec context out_dir
    (WINDOWS_TARGET_TRIPLES.contains target_triple) cm
  by_cases hd : strEndsWith target_triple "-apple-darwin" = true
  · obtain ⟨r, hr, hcmr⟩ := hblock hd
    refine ⟨probeDirectives r, ⟨fun _ => ⟨r, hr, rfl⟩, fun hf => absurd hd (by simp [hf])⟩,
      ?_, ?_, ?_, hevs.symm⟩
    · rw [← hinfo, hcm, hcmr, libraryDirectives_eq]
      try simp [List.append_assoc]
    · rw [← hinfo]; exact hp1
    · rw [← hinfo]; exact hp2'
  · have hdf : strEndsWith target_triple "-apple-darwin" = false := by
      simpa using hd
    have hcmn := hnb hdf
    refine ⟨[], ⟨fun ht => absurd ht hd, fun _ => rfl⟩, ?_, ?_, ?_, hevs.symm⟩
    · rw [← hinfo, hcm, hcmn, libraryDirectives_eq]
      try simp [List.append_assoc]
    · rw [← hinfo]; exact hp1
    · rw [← hinfo]; exact hp2'

/-! ### Claims about `link_libpython` -/

theorem appleSysrootFlags_no_sdk {env : Env} {target_triple : String} {build : CcBuild}
    (h : strContains target_triple "-apple-" = true) :
    appleSysrootFlags env target_triple none build =
      .error "Apple SDK info should be defined when targeting Apple platforms" := by
  simp [appleSysrootFlags, h]

theorem prePassOne_apple_no_sdk (env : Env) (context : LibPythonBuildContext)
    (out_dir host_triple target_triple opt_level : String)
    (h : strContains target_triple "-apple-" = true) :
    ∃ e, prePassOne env context out_dir host_triple target_triple opt_level none =
      .error e := by
  simp only [prePassOne]
  cases htd : env.tempdir with
  | error e => exact ⟨e, rfl⟩
  | ok temp_dir_path =>
  dsimp only
  cases hw1 : env.fsWrite (pathJoin out_dir "config.c")
      (make_config_c context.init_functions) with
  | error e => exact ⟨e, rfl⟩
  | ok u1 =>
  cases u1
  dsimp only
  cases hw2 : env.fsWrite (pathJoin temp_dir_path "config.c")
      (make_config_c context.init_functions) with
  | error e => exact ⟨e, rfl⟩
  | ok u2 =>
  cases u2
  dsimp only
  cases hst : stageIncludes env temp_dir_path context.includes with
  | error e => exact ⟨e, rfl⟩
  | ok u3 =>
  cases u3
  dsimp only
  rw [appleSysrootFlags_no_sdk h]
  exact ⟨_, rfl⟩

/-- Claim C5: for every Apple target triple (containing `-apple-`), calling
`link_libpython` with no `apple_sdk_info` returns an error, and the trace
of attempted compiler invocations is empty — the failure happens before
either compile pass, whatever the other oracles do. -/
theorem c5_apple_without_sdk (env : Env) (probe : ProbeOutcome)
    (context : LibPythonBuildContext)
    (out_dir host_triple target_triple opt_level : String)
    (h : strContains target_triple "-apple-" = true) :
    (∃ e, (link_libpython env probe context out_dir host_triple target_triple
        opt_level none).1 = .error e) ∧
    (link_libpython env probe context out_dir host_triple target_triple
        opt_level none).2 = [] := by
  obtain ⟨e, he⟩ := prePassOne_apple_no_sdk env context out_dir host_triple
    target_triple opt_level h
  refine ⟨⟨e, ?_⟩, ?_⟩ <;> simp [link_libpython, he]

/-! ### Concrete fixtures -/

/-- An oracle environment in which every external interaction succeeds. -/
def allOkEnv : Env where
  tempdir := .ok "/tmp/libpython"
  fsWrite := fun _ _ => .ok ()
  createDirAll := fun _ => .ok ()
  resolveLoc := fun _ => .ok ""
  resolve_apple_sdk := fun _ => .ok "/Apple.sdk"
  compile := fun _ _ => .ok ()

/-- A build context with every collection empty. -/
def emptyContext : LibPythonBuildContext where
  init_functions := []
  includes := []
  object_files := []
  frameworks := []
  system_libraries := []
  dynamic_libraries := []
  static_libraries := []
  library_search_paths := []
  inittab_cflags := none

/-- The spec's directive-ordering scenario (§8): one framework `F`, one
system library `S`, one static library `T`, two search paths `P1`, `P2`. -/
def orderingContext : LibPythonBuildContext :=
  { emptyContext with
    frameworks := ["F"]
    system_libraries := ["S"]
    static_libraries := ["T"]
    library_search_paths := ["P1", "P2"] }

/-- Witness for C5 at a concrete Apple target. -/
theorem c5_witness :
    (∃ e, (link_libpython allOkEnv (.exited true []) emptyContext "/out"
        "aarch64-apple-darwin" "aarch64-apple-darwin" "0" none).1 = .error e) ∧
    (link_libpython allOkEnv (.exited true []) emptyContext "/out"
        "aarch64-apple-darwin" "aarch64-apple-darwin" "0" none).2 = [] :=
  c5_apple_without_sdk allOkEnv (.exited true []) emptyContext "/out"
    "aarch64-apple-darwin" "aarch64-apple-darwin" "0" (by decide)

/-! ### C2: probe failure handling -/

theorem darwinMetadata_probe_congr {p1 p2 : ProbeOutcome}
    (h : macos_clang_search_path p1 = macos_clang_search_path p2) :
    darwinMetadata p1 = darwinMetadata p2 := by
  funext target_triple cargo_metadata
  unfold darwinMetadata
  rw [h]

theorem searchLines_none {lines : List String}
    (h : ∀ l ∈ lines, strContains l "libraries: =" = false) :
    searchLines lines = .ok none := by
  rw [searchLines_eq]
  have hf : lines.find? (fun l => strContains l "libraries: =") = none :=
    List.find?_eq_none.mpr (fun x hx => by simp [h x hx])
  rw [hf]
  rfl

/-- Counterexample to C2 as stated: when the probe process fails to launch
(compiler driver absent), `macos_clang_search_path` does not yield `None` —
the launch error propagates through the `?` operator — and `link_libpython`
on a macOS target fails with that error even though every other external
interaction succeeds. -/
theorem c2_counterexample :
    macos_clang_search_path (ProbeOutcome.launchFailure "clang: failed to launch") =
      .error "clang: failed to launch" ∧
    (link_libpython allOkEnv (ProbeOutcome.launchFailure "clang: failed to launch")
        emptyContext "/out" "x86_64-apple-darwin" "x86_64-apple-darwin" "0"
        (some AppleSdkInfo.mk)).1 = .error "clang: failed to launch" :=
  ⟨rfl, rfl⟩

/-- Claim C2 (amended): if the probe process runs but exits with non-zero
status, or exits successfully with no stdout line containing the
`libraries: =` marker, then `macos_clang_search_path` yields `None` and
`link_libpython` behaves exactly as with a benign empty probe output — the
build continues. (A probe that fails to launch instead propagates as an
error; see the counterexample.) -/
theorem c2_soft_probe_failures (env : Env) (probe : ProbeOutcome) (lines : List String)
    (context : LibPythonBuildContext)
    (out_dir host_triple target_triple opt_level : String)
    (apple_sdk_info : Option AppleSdkInfo)
    (h : probe = .exited false lines ∨
      (probe = .exited true lines ∧ ∀ l ∈ lines, strContains l "libraries: =" = false)) :
    macos_clang_search_path probe = .ok none ∧
    link_libpython env probe context out_dir host_triple target_triple opt_level
        apple_sdk_info =
      link_libpython env (.exited true []) context out_dir host_triple target_triple
        opt_level apple_sdk_info := by
  have h1 : macos_clang_search_path probe = .ok none := by
    rcases h with h | ⟨h, hm⟩
    · rw [h]; rfl
    · rw [h]
      simpa [macos_clang_search_path] using searchLines_none hm
  have h2 : macos_clang_search_path (ProbeOutcome.exited true []) = .ok none := rfl
  refine ⟨h1, ?_⟩
  unfold link_libpython
  rw [darwinMetadata_probe_congr (h1.trans h2.symm)]

/-- Witness for C2 (amended) at a concrete non-zero-exit probe. -/
theorem c2_witness :
    macos_clang_search_path (ProbeOutcome.exited false []) = .ok none ∧
    link_libpython allOkEnv (.exited false []) emptyContext "/out" "x86_64-apple-darwin"
        "x86_64-apple-darwin" "0" (some AppleSdkInfo.mk) =
      link_libpython allOkEnv (.exited true []) emptyContext "/out" "x86_64-apple-darwin"
        "x86_64-apple-darwin" "0" (some AppleSdkInfo.mk) :=
  c2_soft_probe_failures allOkEnv (.exited false []) [] emptyContext "/out"
    "x86_64-apple-darwin" "x86_64-apple-darwin" "0" (some AppleSdkInfo.mk) (Or.inl rfl)

/-! ### C3, C4, C6 -/

/-- Claim C3: on every successful `link_libpython` run the directive list
is exactly, in order: the static-link directive for `pyembeddedconfig`;
one framework directive per entry of `frameworks` in input order; one
directive per entry of `system_libraries`, then `dynamic_libraries`, then
`static_libraries` (static-link form), each in input order; on
`*-apple-darwin` targets the probe block (search-path directive when
resolution yielded a path, then `clang_rt.osx`); the static-link directive
for `pythonXY` followed by the native search-path directive for the output
directory; and one native search-path directive per entry of
`library_search_paths` in input order — so the output-directory directive
precedes every `library_search_paths` directive. -/
theorem c3_directive_order
    {env : Env} {probe : ProbeOutcome} {context : LibPythonBuildContext}
    {out_dir host_triple target_triple opt_level : String}
    {apple_sdk_info : Option AppleSdkInfo} {info : LibpythonInfo} {evs : List Event}
    (h : link_libpython env probe context out_dir host_triple target_triple opt_level
      apple_sdk_info = (.ok info, evs)) :
    ∃ darwinBlock : List String,
      ((strEndsWith target_triple "-apple-darwin" = true →
          ∃ r, macos_clang_search_path probe = .ok r ∧ darwinBlock = probeDirectives r) ∧
       (strEndsWith target_triple "-apple-darwin" = false → darwinBlock = [])) ∧
      info.cargo_metadata =
        ["cargo:rustc-link-lib=static=pyembeddedconfig"]
        ++ context.frameworks.map (fun framework => "cargo:rustc-link-lib=framework=" ++ framework)
        ++ context.system_libraries.map (fun lib => "cargo:rustc-link-lib=" ++ lib)
        ++ context.dynamic_libraries.map (fun lib => "cargo:rustc-link-lib=" ++ lib)
        ++ context.static_libraries.map (fun lib => "cargo:rustc-link-lib=static=" ++ lib)
        ++ darwinBlock
        ++ ["cargo:rustc-link-lib=static=pythonXY",
            "cargo:rustc-link-search=native=" ++ out_dir]
        ++ context.library_search_paths.map
            (fun path => "cargo:rustc-link-search=native=" ++ path) := by
  obtain ⟨b, hb, hcm, _, _, _⟩ := link_ok_characterization h
  exact ⟨b, hb, hcm⟩

/-- Claim C4: on every successful run the produced artifact filenames are a
pure function of whether the target triple is a Windows triple: `.lib`
names (with the fixed `pythonXY` alias) on Windows, `lib*.a` names
otherwise. -/
theorem c4_artifact_naming
    {env : Env} {probe : ProbeOutcome} {context : LibPythonBuildContext}
    {out_dir host_triple target_triple opt_level : String}
    {apple_sdk_info : Option AppleSdkInfo} {info : LibpythonInfo} {evs : List Event}
    (h : link_libpython env probe context out_dir host_triple target_triple opt_level
      apple_sdk_info = (.ok info, evs)) :
    info.libpyembeddedconfig_path = pathJoin out_dir
      (if WINDOWS_TARGET_TRIPLES.contains target_triple
        then "pyembeddedconfig.lib" else "libpyembeddedconfig.a") ∧
    info.libpython_path = pathJoin out_dir
      (if WINDOWS_TARGET_TRIPLES.contains target_triple
        then "pythonXY.lib" else "libpythonXY.a") := by
  obtain ⟨_, _, _, hp1, hp2, _⟩ := link_ok_characterization h
  exact ⟨hp1, hp2⟩

theorem filter_search_map_none (l : List String) (g : String → String)
    (hg : ∀ x, strStartsWith (g x) "cargo:rustc-link-search=" = false) :
    (l.map g).filter (fun d => strStartsWith d "cargo:rustc-link-search=") = [] := by
  rw [List.filter_eq_nil_iff]
  intro a ha
  obtain ⟨x, _, rfl⟩ := List.mem_map.mp ha
  simp [hg x]

theorem filter_search_map_all (l : List String) (g : String → String)
    (hg : ∀ x, strStartsWith (g x) "cargo:rustc-link-search=" = true) :
    (l.map g).filter (fun d => strStartsWith d "cargo:rustc-link-search=") = l.map g := by
  rw [List.filter_eq_self]
  intro a ha
  obtain ⟨x, _, rfl⟩ := List.mem_map.mp ha
  exact hg x

/-- Claim C6: on every successful run for a `*-apple-darwin` target, the
probe resolution succeeded with some result `r` and the directive list is
exactly the fixed pre-block, then the probe block `probeDirectives r`
(runtime search-path directive immediately followed by `clang_rt.osx`
when `r` resolved a path, `clang_rt.osx` alone when it did not), then the
fixed post-block; `clang_rt.osx` always appears, and the elements of the
list that are search-path directives are exactly the probe one (present
iff `r` is `some`) followed by the output-directory and
`library_search_paths` ones — so no search-path directive beyond those
appears when the probe resolved nothing. -/
theorem c6_darwin_runtime_directives
    {env : Env} {probe : ProbeOutcome} {context : LibPythonBuildContext}
    {out_dir host_triple target_triple opt_level : String}
    {apple_sdk_info : Option AppleSdkInfo} {info : LibpythonInfo} {evs : List Event}
    (h : link_libpython env probe context out_dir host_triple target_triple opt_level
      apple_sdk_info = (.ok info, evs))
    (hd : strEndsWith target_triple "-apple-darwin" = true) :
    ∃ r : Option String,
      macos_clang_search_path probe = .ok r ∧
      info.cargo_metadata =
        (["cargo:rustc-link-lib=static=pyembeddedconfig"]
          ++ context.frameworks.map
              (fun framework => "cargo:rustc-link-lib=framework=" ++ framework)
          ++ context.system_libraries.map (fun lib => "cargo:rustc-link-lib=" ++ lib)
          ++ context.dynamic_libraries.map (fun lib => "cargo:rustc-link-lib=" ++ lib)
          ++ context.static_libraries.map (fun lib => "cargo:rustc-link-lib=static=" ++ lib))
        ++ probeDirectives r
        ++ (["cargo:rustc-link-lib=static=pythonXY",
             "cargo:rustc-link-search=native=" ++ out_dir]
            ++ context.library_search_paths.map
                (fun path => "cargo:rustc-link-search=native=" ++ path)) ∧
      "cargo:rustc-link-lib=clang_rt.osx" ∈ info.cargo_metadata ∧
      (∀ p, r = some p → probeDirectives r =
        ["cargo:rustc-link-search=" ++ p, "cargo:rustc-link-lib=clang_rt.osx"]) ∧
      (r = none → probeDirectives r = ["cargo:rustc-link-lib=clang_rt.osx"]) ∧
      info.cargo_metadata.filter (fun d => strStartsWith d "cargo:rustc-link-search=") =
        (match r with
          | some p => ["cargo:rustc-link-search=" ++ p]
          | none => [])
        ++ ["cargo:rustc-link-search=native=" ++ out_dir]
        ++ context.library_search_paths.map
            (fun path => "cargo:rustc-link-search=native=" ++ path) := by
  obtain ⟨b, ⟨hbt, _⟩, hcm, _, _, _⟩ := link_ok_characterization h
  obtain ⟨r, hr, hbr⟩ := hbt hd
  subst hbr
  have hfw : (context.frameworks.map
      (fun framework => "cargo:rustc-link-lib=framework=" ++ framework)).filter
      (fun d => strStartsWith d "cargo:rustc-link-search=") = [] :=
    filter_search_map_none _ _ (fun x => rfl)
  have hsys : (context.system_libraries.map (fun lib => "cargo:rustc-link-lib=" ++ lib)).filter
      (fun d => strStartsWith d "cargo:rustc-link-search=") = [] :=
    filter_search_map_none _ _ (fun x => rfl)
  have hdyn : (context.dynamic_libraries.map (fun lib => "cargo:rustc-link-lib=" ++ lib)).filter
      (fun d => strStartsWith d "cargo:rustc-link-search=") = [] :=
    filter_search_map_none _ _ (fun x => rfl)
  have hst : (context.static_libraries.map
      (fun lib => "cargo:rustc-link-lib=static=" ++ lib)).filter
      (fun d => strStartsWith d "cargo:rustc-link-search=") = [] :=
    filter_search_map_none _ _ (fun x => rfl)
  have hpaths : (context.library_search_paths.map
      (fun path => "cargo:rustc-link-search=native=" ++ path)).filter
      (fun d => strStartsWith d "cargo:rustc-link-search=") =
      context.library_search_paths.map
        (fun path => "cargo:rustc-link-search=native=" ++ path) :=
    filter_search_map_all _ _ (fun x => rfl)
  have l1 : strStartsWith "cargo:rustc-link-lib=static=pyembeddedconfig"
      "cargo:rustc-link-search=" = false := rfl
  have l2 : strStartsWith "cargo:rustc-link-lib=clang_rt.osx"
      "cargo:rustc-link-search=" = false := rfl
  have l3 : strStartsWith "cargo:rustc-link-lib=static=pythonXY"
      "cargo:rustc-link-search=" = false := rfl
  have l4 : strStartsWith ("cargo:rustc-link-search=native=" ++ out_dir)
      "cargo:rustc-link-search=" = true := rfl
  have l5 : ∀ p : String, strStartsWith ("cargo:rustc-link-search=" ++ p)
      "cargo:rustc-link-search=" = true := fun p => rfl
  refine ⟨r, hr, ?_, ?_, ?_, ?_, ?_⟩
  · rw [hcm]
    simp [List.append_assoc]
  · rw [hcm]
    cases r <;> simp [probeDirectives]
  · intro p hp
    rw [hp]
    rfl
  · intro hp
    rw [hp]
    rfl
  · rw [hcm]
    cases r with
    | none =>
      simp [List.filter_append, List.filter_cons, hfw, hsys, hdyn, hst, hpaths,
        probeDirectives, l1, l2, l3, l4]
    | some p =>
      simp [List.filter_append, List.filter_cons, hfw, hsys, hdyn, hst, hpaths,
        probeDirectives, l1, l2, l3, l4, l5 p]

/-! ### Concrete successful runs for the witnesses -/

/-- Result of the ordering scenario on `x86_64-apple-darwin` with a probe
that resolves `/clang`. -/
def orderingInfo : LibpythonInfo where
  libpython_path := "/out/libpythonXY.a"
  libpyembeddedconfig_path := "/out/libpyembeddedconfig.a"
  cargo_metadata :=
    ["cargo:rustc-link-lib=static=pyembeddedconfig",
     "cargo:rustc-link-lib=framework=F",
     "cargo:rustc-link-lib=S",
     "cargo:rustc-link-lib=static=T",
     "cargo:rustc-link-search=/clang/lib/darwin",
     "cargo:rustc-link-lib=clang_rt.osx",
     "cargo:rustc-link-lib=static=pythonXY",
     "cargo:rustc-link-search=native=/out",
     "cargo:rustc-link-search=native=P1",
     "cargo:rustc-link-search=native=P2"]

/-- Result of an empty-context run on `x86_64-apple-darwin` with a probe
that exited non-zero (no search path resolved). -/
def darwinNoPathInfo : LibpythonInfo where
  libpython_path := "/out/libpythonXY.a"
  libpyembeddedconfig_path := "/out/libpyembeddedconfig.a"
  cargo_metadata :=
    ["cargo:rustc-link-lib=static=pyembeddedconfig",
     "cargo:rustc-link-lib=clang_rt.osx",
     "cargo:rustc-link-lib=static=pythonXY",
     "cargo:rustc-link-search=native=/out"]

/-- Result of an empty-context run on `x86_64-pc-windows-msvc`. -/
def windowsInfo : LibpythonInfo where
  libpython_path := "/out/pythonXY.lib"
  libpyembeddedconfig_path := "/out/pyembeddedconfig.lib"
  cargo_metadata :=
    ["cargo:rustc-link-lib=static=pyembeddedconfig",
     "cargo:rustc-link-lib=static=pythonXY",
     "cargo:rustc-link-search=native=/out"]

/-- Witness for C3 on the spec's ordering scenario. -/
theorem c3_witness :
    ∃ darwinBlock : List String,
      ((strEndsWith "x86_64-apple-darwin" "-apple-darwin" = true →
          ∃ r, macos_clang_search_path (.exited true ["libraries: =/clang"]) = .ok r ∧
            darwinBlock = probeDirectives r) ∧
       (strEndsWith "x86_64-apple-darwin" "-apple-darwin" = false → darwinBlock = [])) ∧
      orderingInfo.cargo_metadata =
        ["cargo:rustc-link-lib=static=pyembeddedconfig"]
        ++ orderingContext.frameworks.map
            (fun framework => "cargo:rustc-link-lib=framework=" ++ framework)
        ++ orderingContext.system_libraries.map (fun lib => "cargo:rustc-link-lib=" ++ lib)
        ++ orderingContext.dynamic_libraries.map (fun lib => "cargo:rustc-link-lib=" ++ lib)
        ++ orderingContext.static_libraries.map
            (fun lib => "cargo:rustc-link-lib=static=" ++ lib)
        ++ darwinBlock
        ++ ["cargo:rustc-link-lib=static=pythonXY",
            "cargo:rustc-link-search=native=" ++ "/out"]
        ++ orderingContext.library_search_paths.map
            (fun path => "cargo:rustc-link-search=native=" ++ path) :=
  @c3_directive_order allOkEnv (.exited true ["libraries: =/clang"]) orderingContext
    "/out" "x86_64-apple-darwin" "x86_64-apple-darwin" "0" (some AppleSdkInfo.mk)
    orderingInfo [.compileInvocation "pyembeddedconfig", .compileInvocation "pythonXY"] rfl

/-- Witness for C4 on a concrete Windows target. -/
theorem c4_witness :
    windowsInfo.libpyembeddedconfig_path = pathJoin "/out"
      (if WINDOWS_TARGET_TRIPLES.contains "x86_64-pc-windows-msvc"
        then "pyembeddedconfig.lib" else "libpyembeddedconfig.a") ∧
    windowsInfo.libpython_path = pathJoin "/out"
      (if WINDOWS_TARGET_TRIPLES.contains "x86_64-pc-windows-msvc"
        then "pythonXY.lib" else "libpythonXY.a") :=
  @c4_artifact_naming allOkEnv (.exited true []) emptyContext
    "/out" "x86_64-pc-windows-msvc" "x86_64-pc-windows-msvc" "0" none
    windowsInfo [.compileInvocation "pyembeddedconfig", .compileInvocation "pythonXY"] rfl

/-- Witness for C6 on a concrete darwin run whose probe exited non-zero. -/
theorem c6_witness :
    ∃ r : Option String,
      macos_clang_search_path (.exited false []) = .ok r ∧
      darwinNoPathInfo.cargo_metadata =
        (["cargo:rustc-link-lib=static=pyembeddedconfig"]
          ++ emptyContext.frameworks.map
              (fun framework => "cargo:rustc-link-lib=framework=" ++ framework)
          ++ emptyContext.system_libraries.map (fun lib => "cargo:rustc-link-lib=" ++ lib)
          ++ emptyContext.dynamic_libraries.map (fun lib => "cargo:rustc-link-lib=" ++ lib)
          ++ emptyContext.static_libraries.map
              (fun lib => "cargo:rustc-link-lib=static=" ++ lib))
        ++ probeDirectives r
        ++ (["cargo:rustc-link-lib=static=pythonXY",
             "cargo:rustc-link-search=native=" ++ "/out"]
            ++ emptyContext.library_search_paths.map
                (fun path => "cargo:rustc-link-search=native=" ++ path)) ∧
      "cargo:rustc-link-lib=clang_rt.osx" ∈ darwinNoPathInfo.cargo_metadata ∧
      (∀ p, r = some p → probeDirectives r =
        ["cargo:rustc-link-search=" ++ p, "cargo:rustc-link-lib=clang_rt.osx"]) ∧
      (r = none → probeDirectives r = ["cargo:rustc-link-lib=clang_rt.osx"]) ∧
      darwinNoPathInfo.cargo_metadata.filter
          (fun d => strStartsWith d "cargo:rustc-link-search=") =
        (match r with
          | some p => ["cargo:rustc-link-search=" ++ p]
          | none => [])
        ++ ["cargo:rustc-link-search=native=" ++ "/out"]
        ++ emptyContext.library_search_paths.map
            (fun path => "cargo:rustc-link-search=native=" ++ path) :=
  @c6_darwin_runtime_directives allOkEnv (.exited false []) emptyContext
    "/out" "x86_64-apple-darwin" "x86_64-apple-darwin" "0" (some AppleSdkInfo.mk)
    darwinNoPathInfo [.compileInvocation "pyembeddedconfig", .compileInvocation "pythonXY"]
    rfl (by decide)

/-! ## Starlark attribute dispatch for `PythonPackageDistributionResource`
(python_package_distribution_resource.rs lines 47-107) -/

/-- The wrapped resource. Modelled from the spec: the full
`PythonPackageDistributionResource` type lives in the `python_packaging`
crate, outside the provided sources; `get_attr`/`to_str` only read its
`package` and `name` string fields, so only those are modelled. -/
structure PythonPackageDistributionResource where
  package : String
  name : String
  deriving DecidableEq, Repr

/-- The starlark value wrapper (lines 18-22). The optional add-collection
context is irrelevant to attribute dispatch and modelled as a `Bool`
presence flag. -/
structure PythonPackageDistributionResourceValue where
  inner : PythonPackageDistributionResource
  add_context_present : Bool
  deriving DecidableEq, Repr

/-- Modelled from the spec: the starlark `Value` object model is part of
the excluded configuration layer; only the shapes produced by `get_attr`
are modelled — a boolean, a string, or the projection of the
add-collection-context policy object for a context attribute name. -/
inductive StarValue
  | bool (b : Bool)
  | str (s : String)
  | fromAddContext (attr : String)
  deriving DecidableEq, Repr

/-- The `starlark::values::error::ValueError` variant raised by `get_attr`
(lines 82-86): `OperationNotSupported` with op `GetAttr(attr)`, the type
name on the left and nothing on the right. -/
inductive ValueError
  | operationNotSupportedGetAttr (attr : String) (left : String) (right : Option String)
  deriving DecidableEq, Repr

/-- The `TYPE` constant of the `TypedValue` impl (line 49). -/
def distributionResourceTYPE : String := "PythonPackageDistributionResource"

/-- `get_attr` (lines 72-92). The attribute set
`add_collection_context_attrs()` and the getter
`get_attr_add_collection_context` are supplied by the
`ResourceCollectionContext` trait in python_resource.rs, which is outside
the provided sources; modelled from the spec ("exposes named readable
fields") as an explicit attribute-name list `ctxAttrs` and the opaque
`StarValue.fromAddContext` projection. -/
def get_attr (ctxAttrs : List String) (v : PythonPackageDistributionResourceValue)
    (attributeName : String) : Except ValueError StarValue :=
  if attributeName = "is_stdlib" then .ok (.bool false)
  else if attributeName = "package" then .ok (.str v.inner.package)
  else if attributeName = "name" then .ok (.str v.inner.name)
  else if ctxAttrs.contains attributeName then .ok (.fromAddContext attributeName)
  else .error (.operationNotSupportedGetAttr attributeName distributionResourceTYPE none)

/-- `has_attr` (lines 94-102). -/
def has_attr (ctxAttrs : List String) (_v : PythonPackageDistributionResourceValue)
    (attributeName : String) : Except ValueError Bool :=
  .ok (if attributeName = "is_stdlib" then true
    else if attributeName = "package" then true
    else if attributeName = "name" then true
    else ctxAttrs.contains attributeName)

/-- Claim C10: for every value `v` and attribute `a`: `is_stdlib` reads as
`false`, `package` and `name` read the inner resource's strings; `get_attr`
raises `OperationNotSupported(GetAttr)` exactly when `a` is none of those
three names and not in the add-collection-context attribute set; and
`has_attr` answers `true` exactly when `a` is one of the three names or in
that set. -/
theorem c10_attr_dispatch (ctxAttrs : List String)
    (v : PythonPackageDistributionResourceValue) (a : String) :
    get_attr ctxAttrs v "is_stdlib" = .ok (.bool false) ∧
    get_attr ctxAttrs v "package" = .ok (.str v.inner.package) ∧
    get_attr ctxAttrs v "name" = .ok (.str v.inner.name) ∧
    (get_attr ctxAttrs v a =
        .error (.operationNotSupportedGetAttr a distributionResourceTYPE none) ↔
      (a ∉ (["is_stdlib", "package", "name"] : List String) ∧ ctxAttrs.contains a = false)) ∧
    (has_attr ctxAttrs v a = .ok true ↔
      (a ∈ (["is_stdlib", "package", "name"] : List String) ∨ ctxAttrs.contains a = true)) := by
  refine ⟨rfl, rfl, rfl, ?_, ?_⟩
  · by_cases h1 : a = "is_stdlib"
    · simp [get_attr, h1]
    · by_cases h2 : a = "package"
      · simp [get_attr, h2]
      · by_cases h3 : a = "name"
        · simp [get_attr, h3]
        · by_cases h4 : ctxAttrs.contains a
          · simp [get_attr, h1, h2, h3, h4]
          · simp [get_attr, h1, h2, h3, h4]
  · by_cases h1 : a = "is_stdlib"
    · simp [has_attr, h1]
    · by_cases h2 : a = "package"
      · simp [has_attr, h2]
      · by_cases h3 : a = "name"
        · simp [has_attr, h3]
        · by_cases h4 : ctxAttrs.contains a
          · simp [has_attr, h1, h2, h3, h4]
          · simp [has_attr, h1, h2, h3, h4]

end PyOx
